import Mathlib

/-!
Verification of the pandera schema model against its specification.

This development shallowly embeds the schema object model of the repository
(`pandera/api/pandas/schema.py`, `container.py`, `column.py`,
`multi_index.py`, `pandera/backends/pandas/utils.py`,
`pandera/backends/pyspark/builtin_checks.py`) in Lean.  Python dictionaries
are modelled as insertion-ordered association lists with unique keys,
raising code paths return `Except`, and `copy.deepcopy` is value copying.
Classes of the repository that are not part of the sources at hand
(`pandera/api/pandas/index.py`, `pandera/api/base/schema.py`) are modelled
from the specification where needed; every such definition is marked
`Modelled from the spec:` in its doc comment.
-/

namespace Pandera

/-- A Python dictionary key as used in schema column mappings: a string
column label, an integer position (unnamed MultiIndex levels), or `None`
(the `name` attribute of an unnamed component). -/
inductive PKey where
  | str (s : String)
  | nat (n : Nat)
  | none
deriving DecidableEq, Repr

/-- Python truthiness of a key-like value (`""`, `0` and `None` are falsy). -/
def PKey.truthy : PKey → Bool
  | .str s => s ≠ ""
  | .nat n => n ≠ 0
  | .none => false

/-- A declared datatype, abstracted to its engine name. -/
abbrev DType := String

/-- The `groupby` argument of a `Check`: absent, a callable, or a list of
column names. -/
inductive Groupby where
  | none
  | callable
  | cols (l : List String)
deriving DecidableEq, Repr

/-- A `Check` as far as the schema model inspects it: its name and its
`groupby` argument (`pandera/api/checks.py` is treated as an opaque value
object; `_validate_columns` only reads `check.groupby`). -/
structure Check where
  name : String
  groupby : Groupby
deriving DecidableEq, Repr

/-- The errors raised by the embedded code paths.  Only the error class
matters for the claims; messages are fixed summaries of the Python
messages. -/
inductive PanderaError where
  | schemaInitError (msg : String)
  | valueError (msg : String)
  | typeError (msg : String)
  | keyError (msg : String)
  | attributeError (msg : String)
deriving DecidableEq, Repr

/-- `pandera.api.pandas.column.Column` (column.py): the fields returned by
`Column.properties`, plus `drop_invalid_rows` (a constructor argument that
`properties` omits).  The `_IS_INFERRED` bookkeeping flag is omitted: the
schema `__eq__` explicitly ignores it.  Field defaults are the Python
constructor defaults. -/
structure Column where
  dtype : Option DType := Option.none
  checks : List Check := []
  nullable : Bool := false
  unique : Bool := false
  report_duplicates : String := "all"
  coerce : Bool := false
  required : Bool := true
  name : PKey := PKey.none
  regex : Bool := false
  title : Option String := Option.none
  description : Option String := Option.none
  default : Option String := Option.none
  metadata : Option String := Option.none
  drop_invalid_rows : Bool := false
deriving DecidableEq, Repr

/-- `Column.set_name` (column.py lines 133-140). -/
def Column.set_name (c : Column) (n : PKey) : Column := { c with name := n }

/-- Modelled from the spec: the pandas `Index` schema component
(`pandera/api/pandas/index.py`, not under `src/`).  Per the spec a
FieldSchema carries a declared type, checks, nullability and uniqueness
flags, a coercion flag and a name; these are exactly the attributes that
`set_index`/`reset_index` (container.py) read off an `Index`. -/
structure Index where
  dtype : Option DType := Option.none
  checks : List Check := []
  nullable : Bool := false
  unique : Bool := false
  coerce : Bool := false
  name : PKey := PKey.none
deriving DecidableEq, Repr

/-- Modelled from the spec: `Index.names` is the singleton of the index
name (the single-axis case of the MultiIndex `names` property). -/
def Index.names (i : Index) : List PKey := [i.name]

/-! Python `dict` as an insertion-ordered association list. -/

/-- A Python `dict` with `PKey` keys. -/
abbrev Dict (α : Type) := List (PKey × α)

/-- The key view of a dict (`d.keys()`). -/
def Dict.keys (m : Dict α) : List PKey := m.map Prod.fst

/-- First-match lookup (`d.get(k)`); keys are unique in dicts built by the
embedded code, so first-match agrees with Python lookup. -/
def Dict.get? : Dict α → PKey → Option α
  | [], _ => Option.none
  | kv :: rest, k => if kv.1 = k then Option.some kv.2 else Dict.get? rest k

/-- `d[k] = v`: replace in place if the key exists, else append. -/
def Dict.insert (m : Dict α) (k : PKey) (v : α) : Dict α :=
  if k ∈ Dict.keys m then m.map (fun kv => if kv.1 = k then (k, v) else kv)
  else m ++ [(k, v)]

/-- `{**a, **b}`: entries of `a`, updated/extended by the entries of `b`. -/
def Dict.merge (a b : Dict α) : Dict α :=
  b.foldl (fun acc kv => Dict.insert acc kv.1 kv.2) a

/-- `d.pop(k)` without a default: removes the key or raises `KeyError`. -/
def Dict.pop (m : Dict α) (k : PKey) : Except PanderaError (Dict α) :=
  if k ∈ Dict.keys m then Except.ok (m.filter (fun kv => decide (kv.1 ≠ k)))
  else Except.error (PanderaError.keyError "key not found")

/-! Construction-time validation (schema.py lines 1073-1102). -/

/-- Message of the groupby construction error (schema.py lines 1084-1088). -/
def groupbyErrMsg : String :=
  "groupby argument in Check for Column not specified in the DataFrameSchema."

/-- Inner loop of `_validate_columns`: walk one column's checks and raise on
the first check whose list-valued `groupby` mentions a key absent from the
column mapping (callable or absent `groupby` is skipped). -/
def validateColumnChecks (keys : List PKey) : List Check → Except PanderaError Unit
  | [] => Except.ok ()
  | check :: rest =>
    match check.groupby with
    | Groupby.none => validateColumnChecks keys rest
    | Groupby.callable => validateColumnChecks keys rest
    | Groupby.cols gs =>
      let nonexistent := gs.filter (fun c => decide (PKey.str c ∉ keys))
      if nonexistent = [] then validateColumnChecks keys rest
      else Except.error (PanderaError.schemaInitError groupbyErrMsg)

/-- Outer loop of `_validate_columns` (schema.py lines 1073-1088). -/
def validateColumnsAux (keys : List PKey) : List (PKey × Column) → Except PanderaError Unit
  | [] => Except.ok ()
  | (_, col) :: rest => do
    validateColumnChecks keys col.checks
    validateColumnsAux keys rest

/-- `_validate_columns` (schema.py lines 1073-1088). -/
def validateColumns (d : Dict Column) : Except PanderaError Unit :=
  validateColumnsAux (Dict.keys d) d

/-- `_columns_renamed` (schema.py lines 1091-1102): deep-copy every column
and rebind its `name` to its dictionary key. -/
def columnsRenamed (columns : Dict Column) : Dict Column :=
  columns.map (fun kv => (kv.1, kv.2.set_name kv.1))

/-! The duplicate-reporting parameter conversion
(`pandera/backends/pandas/utils.py` lines 8-24). -/

/-- The `keep` argument passed on to the pandas `duplicated` call: a string
or a bool, as in the Python `bool | str` return annotation. -/
inductive KeepSetting where
  | strArg (s : String)
  | boolArg (b : Bool)
deriving DecidableEq, Repr

/-- `convert_uniquesettings` (utils.py lines 8-24). -/
def convert_uniquesettings (unique : String) : Except PanderaError KeepSetting :=
  if unique = "exclude_first" then Except.ok (KeepSetting.strArg "first")
  else if unique = "exclude_last" then Except.ok (KeepSetting.strArg "last")
  else if unique = "all" then Except.ok (KeepSetting.boolArg false)
  else Except.error
    (PanderaError.valueError "is not a recognized report_duplicates value")

/-! The table schema (schema.py, container.py, multi_index.py). -/

/-- The `strict` option, restricted to the three values the constructor
admits (schema.py lines 145-153 reject everything else with
`SchemaInitError`; the rejected inputs are unrepresentable here). -/
inductive Strict where
  | strictFalse
  | strictTrue
  | filter
deriving DecidableEq, Repr

/-- `pandera.api.pandas.multi_index.MultiIndex` (multi_index.py): the member
indexes plus the `BaseDataFrameSchema` state built by its `super().__init__`
call.  Base fields that the `MultiIndex` constructor always leaves at their
defaults (`checks=[]`, `dtype=None`, `index=None`, ...) are omitted; they
are equal on all `MultiIndex` values, so `__eq__` is unaffected. -/
structure MultiIndexSchema where
  indexes : List Index
  columns : Dict Column
  coerce : Bool
  strict : Strict
  name : Option String
  ordered : Bool
  unique : Option (List String)
deriving DecidableEq, Repr

/-- `MultiIndex.names` (multi_index.py lines 109-112). -/
def MultiIndexSchema.names (m : MultiIndexSchema) : List PKey :=
  m.indexes.map Index.name

/-- The `index` attribute of a table schema: a single `Index` or a
`MultiIndex`. -/
inductive SchemaIndex where
  | index (i : Index)
  | multi (m : MultiIndexSchema)
deriving DecidableEq, Repr

/-- `pandera.api.pandas.container.DataFrameSchema` state, i.e. the
attributes set by `BaseDataFrameSchema.__init__` (schema.py lines
121-169).  `coerce`/`unique` model the stored `_coerce`/`_unique`; the
`coerce` property additionally consults `DataType.auto_coerce` of the
engine dtype, which is outside the embedded sources and outside every
claim.  `_IS_INFERRED` is omitted: `__eq__` (lines 506-515) explicitly
ignores it, so Lean structure equality is exactly the source `__eq__`. -/
structure DataFrameSchema where
  columns : Dict Column
  checks : List Check
  index : Option SchemaIndex
  dtype : Option DType
  coerce : Bool
  strict : Strict
  name : Option String
  ordered : Bool
  unique : Option (List String)
  report_duplicates : String
  unique_column_names : Bool
  add_missing_columns : Bool
  title : Option String
  description : Option String
  metadata : Option String
  drop_invalid_rows : Bool
deriving DecidableEq, Repr

/-- `BaseDataFrameSchema.__init__` (schema.py lines 34-169): validate the
groupby references of the column checks, then rebind each column's name to
its dictionary key, then store the attributes. -/
def DataFrameSchema.init (columns : Dict Column) (checks : List Check)
    (index : Option SchemaIndex) (dtype : Option DType) (coerce : Bool)
    (strict : Strict) (name : Option String) (ordered : Bool)
    (unique : Option (List String)) (report_duplicates : String)
    (unique_column_names : Bool) (add_missing_columns : Bool)
    (title : Option String) (description : Option String)
    (metadata : Option String) (drop_invalid_rows : Bool) :
    Except PanderaError DataFrameSchema := do
  validateColumns columns
  Except.ok
    { columns := columnsRenamed columns, checks, index, dtype, coerce, strict,
      name, ordered, unique, report_duplicates, unique_column_names,
      add_missing_columns, title, description, metadata, drop_invalid_rows }

/-- `self.__class__(extra_schema_cols)` as called by `add_columns`
(schema.py line 582): the constructor applied to a column mapping with
every other argument at its default. -/
def DataFrameSchema.ofColumns (columns : Dict Column) :
    Except PanderaError DataFrameSchema :=
  DataFrameSchema.init columns [] Option.none Option.none false
    Strict.strictFalse Option.none false Option.none "all" false false
    Option.none Option.none Option.none false

/-- Message of the missing-key transform error (schema.py line 640 and its
clones). -/
def keysNotFoundMsg : String := "Keys not found in schema columns!"

/-- The column built for one MultiIndex level (multi_index.py lines 94-99):
`Column(dtype=index._dtype, checks=index.checks, nullable=index.nullable,
unique=index.unique)`, every other argument at its default. -/
def mkIndexColumn (index : Index) : Column :=
  { dtype := index.dtype, checks := index.checks, nullable := index.nullable,
    unique := index.unique }

/-- Message of the unnamed-unordered-MultiIndex error (multi_index.py lines
90-93). -/
def multiIndexNameErrMsg : String :=
  "You must specify index names if MultiIndex schema component is not ordered."

/-- Column-building loop of `MultiIndex.__init__` (multi_index.py lines
84-99): enumerate the indexes; an unnamed member of an unordered MultiIndex
raises `SchemaInitError`; otherwise the key is the name, or the position
for unnamed members. -/
def multiIndexColumnsAux (ordered : Bool) :
    Nat → Dict Column → List Index → Except PanderaError (Dict Column)
  | _, acc, [] => Except.ok acc
  | i, acc, index :: rest => do
    if ¬ ordered ∧ index.name = PKey.none then
      throw (PanderaError.schemaInitError multiIndexNameErrMsg)
    let key := if index.name = PKey.none then PKey.nat i else index.name
    multiIndexColumnsAux ordered (i + 1) (Dict.insert acc key (mkIndexColumn index)) rest

/-- The column mapping the MultiIndex loop produces from consecutively
numbered all-unnamed levels (used to state the positional-addressing
property). -/
def enumIndexColumns (i : Nat) : List Index → Dict Column
  | [] => []
  | idx :: rest => (PKey.nat i, mkIndexColumn idx) :: enumIndexColumns (i + 1) rest

/-- `MultiIndex.__init__` (multi_index.py lines 23-107): build the column
mapping from the member indexes, then run the base constructor steps
(`_validate_columns`, `_columns_renamed`) on it. -/
def MultiIndexSchema.init (indexes : List Index) (coerce : Bool)
    (strict : Strict) (name : Option String) (ordered : Bool)
    (unique : Option (List String)) : Except PanderaError MultiIndexSchema := do
  let columns ← multiIndexColumnsAux ordered 0 [] indexes
  validateColumns columns
  Except.ok
    { indexes, columns := columnsRenamed columns, coerce, strict, name,
      ordered, unique }

/-- The result of a schema-transform method call: the value of the returned
schema, and whether the returned object is freshly allocated (`fresh =
true`, the `copy.deepcopy`-then-modify paths) or the receiver object itself
(`fresh = false`, only the `reset_index(level=[])` early return at
container.py lines 240-241).  The receiver is never mutated: every
in-place assignment in the source targets the deep copy. -/
structure TransformResult where
  result : DataFrameSchema
  fresh : Bool
deriving DecidableEq, Repr

/-- Value computed by `add_columns` (schema.py lines 533-584): deep-copy the
receiver and overwrite its column mapping with
`{**self.columns, **self.__class__(extra_schema_cols).columns}`. -/
def addColumnsValue (self : DataFrameSchema) (extra_schema_cols : Dict Column) :
    Except PanderaError DataFrameSchema := do
  let schema_copy := self
  let extraSchema ← DataFrameSchema.ofColumns extra_schema_cols
  Except.ok { schema_copy with
    columns := Dict.merge schema_copy.columns extraSchema.columns }

/-- `add_columns` (schema.py lines 533-584). -/
def DataFrameSchema.add_columns (self : DataFrameSchema)
    (extra_schema_cols : Dict Column) : Except PanderaError TransformResult := do
  let result ← addColumnsValue self extra_schema_cols
  Except.ok ⟨result, true⟩

/-- Value computed by `remove_columns` (schema.py lines 586-646): deep-copy,
fail with `SchemaInitError` if any key is absent, then `pop` each key. -/
def removeColumnsValue (self : DataFrameSchema) (cols_to_remove : List PKey) :
    Except PanderaError DataFrameSchema := do
  let schema_copy := self
  let not_in_cols := cols_to_remove.filter
    (fun x => decide (x ∉ Dict.keys schema_copy.columns))
  if not_in_cols ≠ [] then
    throw (PanderaError.schemaInitError keysNotFoundMsg)
  let newCols ← cols_to_remove.foldlM Dict.pop schema_copy.columns
  Except.ok { schema_copy with columns := newCols }

/-- `remove_columns` (schema.py lines 586-646). -/
def DataFrameSchema.remove_columns (self : DataFrameSchema)
    (cols_to_remove : List PKey) : Except PanderaError TransformResult := do
  let result ← removeColumnsValue self cols_to_remove
  Except.ok ⟨result, true⟩

/-- A `**kwargs`/update dictionary for `update_column(s)`: for each column
property, `Option.some` when the keyword is supplied.  The `name` keyword
additionally distinguishes being supplied from its value, because the
`update_columns` guard tests the supplied value for Python truthiness. -/
structure ColumnUpdate where
  dtype : Option (Option DType) := Option.none
  checks : Option (List Check) := Option.none
  nullable : Option Bool := Option.none
  unique : Option Bool := Option.none
  report_duplicates : Option String := Option.none
  coerce : Option Bool := Option.none
  required : Option Bool := Option.none
  nameProvided : Bool := false
  nameValue : PKey := PKey.none
  regex : Option Bool := Option.none
  title : Option (Option String) := Option.none
  description : Option (Option String) := Option.none
  default : Option (Option String) := Option.none
  metadata : Option (Option String) := Option.none
deriving DecidableEq, Repr

/-- The empty update dictionary (`{}`). -/
def ColumnUpdate.empty : ColumnUpdate := {}

/-- Python truthiness of the update dictionary: `{}` is falsy. -/
def ColumnUpdate.isEmpty (u : ColumnUpdate) : Bool :=
  u = ColumnUpdate.empty

/-- `column.__class__(**{**column.properties, **kwargs})` (schema.py lines
705-707 and 781-791): rebuild the column from its `properties` with the
supplied keywords overriding.  `drop_invalid_rows` is not part of
`Column.properties`, so the rebuilt column always carries the constructor
default `false` for it. -/
def Column.rebuildWith (c : Column) (u : ColumnUpdate) : Column :=
  { dtype := u.dtype.getD c.dtype
    checks := u.checks.getD c.checks
    nullable := u.nullable.getD c.nullable
    unique := u.unique.getD c.unique
    report_duplicates := u.report_duplicates.getD c.report_duplicates
    coerce := u.coerce.getD c.coerce
    required := u.required.getD c.required
    name := if u.nameProvided then u.nameValue else c.name
    regex := u.regex.getD c.regex
    title := u.title.getD c.title
    description := u.description.getD c.description
    default := u.default.getD c.default
    metadata := u.metadata.getD c.metadata
    drop_invalid_rows := false }

/-- Value computed by `update_column` (schema.py lines 648-709): reject a
`name` keyword and a missing column with `ValueError` (the docstring
promises `SchemaInitError` for both), then rebuild the column from its
properties plus the keywords and store it under the same key. -/
def updateColumnValue (self : DataFrameSchema) (column_name : PKey)
    (kwargs : ColumnUpdate) : Except PanderaError DataFrameSchema := do
  if kwargs.nameProvided then
    throw (PanderaError.valueError "cannot update name of the column.")
  match Dict.get? self.columns column_name with
  | Option.none => throw (PanderaError.valueError "column not in schema")
  | Option.some column_copy =>
    let schema_copy := self
    let new_column := column_copy.rebuildWith kwargs
    Except.ok { schema_copy with
      columns := Dict.insert schema_copy.columns column_name new_column }

/-- `update_column` (schema.py lines 648-709). -/
def DataFrameSchema.update_column (self : DataFrameSchema) (column_name : PKey)
    (kwargs : ColumnUpdate) : Except PanderaError TransformResult := do
  let result ← updateColumnValue self column_name kwargs
  Except.ok ⟨result, true⟩

/-- Per-column body of the `update_columns` loop (schema.py lines 772-791):
a truthy update entry whose `name` value is truthy raises
`SchemaInitError`; a truthy entry otherwise rebuilds the column with the
update applied (including a falsy `name` value, which slips past the
guard); a falsy or absent entry rebuilds the column from its unchanged
properties. -/
def updateColumnsEntry (update_dict : Dict ColumnUpdate) (kv : PKey × Column) :
    Except PanderaError (PKey × Column) := do
  match Dict.get? update_dict kv.1 with
  | Option.some u =>
    if ¬ u.isEmpty then do
      if u.nameProvided ∧ u.nameValue.truthy then
        throw (PanderaError.schemaInitError
          "cannot update name property of the column.")
      Except.ok (kv.1, kv.2.rebuildWith u)
    else
      Except.ok (kv.1, kv.2.rebuildWith ColumnUpdate.empty)
  | Option.none => Except.ok (kv.1, kv.2.rebuildWith ColumnUpdate.empty)

/-- Value computed by `update_columns` (schema.py lines 711-795): deep-copy,
fail with `SchemaInitError` if any update key is absent, then rebuild every
column, applying the update entries where present. -/
def updateColumnsValue (self : DataFrameSchema) (update_dict : Dict ColumnUpdate) :
    Except PanderaError DataFrameSchema := do
  let new_schema := self
  let not_in_cols := (Dict.keys update_dict).filter
    (fun x => decide (x ∉ Dict.keys new_schema.columns))
  if not_in_cols ≠ [] then
    throw (PanderaError.schemaInitError keysNotFoundMsg)
  let new_columns ← new_schema.columns.mapM (updateColumnsEntry update_dict)
  Except.ok { new_schema with columns := new_columns }

/-- `update_columns` (schema.py lines 711-795). -/
def DataFrameSchema.update_columns (self : DataFrameSchema)
    (update_dict : Dict ColumnUpdate) : Except PanderaError TransformResult := do
  let result ← updateColumnsValue self update_dict
  Except.ok ⟨result, true⟩

/-- Value computed by `rename_columns` (schema.py lines 797-880): deep-copy;
fail with `SchemaInitError` if any old name is absent; drop identity pairs;
fail with `SchemaInitError` if any remaining target collides with an
existing column key; rebuild the mapping, renaming matched entries with
`set_name`. -/
def renameColumnsValue (self : DataFrameSchema) (rename_dict : Dict PKey) :
    Except PanderaError DataFrameSchema := do
  let new_schema := self
  let not_in_cols := (Dict.keys rename_dict).filter
    (fun x => decide (x ∉ Dict.keys new_schema.columns))
  if not_in_cols ≠ [] then
    throw (PanderaError.schemaInitError keysNotFoundMsg)
  let rename_dict' := rename_dict.filter (fun kv => decide (kv.1 ≠ kv.2))
  let already_in_columns := (rename_dict'.map Prod.snd).filter
    (fun x => decide (x ∈ Dict.keys new_schema.columns))
  if already_in_columns ≠ [] then
    throw (PanderaError.schemaInitError "Keys already found in schema columns!")
  let new_columns := new_schema.columns.map (fun kv =>
    match Dict.get? rename_dict' kv.1 with
    | Option.some newName => (newName, kv.2.set_name newName)
    | Option.none => (kv.1, kv.2))
  Except.ok { new_schema with columns := new_columns }

/-- `rename_columns` (schema.py lines 797-880). -/
def DataFrameSchema.rename_columns (self : DataFrameSchema)
    (rename_dict : Dict PKey) : Except PanderaError TransformResult := do
  let result ← renameColumnsValue self rename_dict
  Except.ok ⟨result, true⟩

/-- Value computed by `select_columns` (schema.py lines 882-943): deep-copy,
fail with `SchemaInitError` if any requested key is absent, then keep only
the requested columns (in schema order). -/
def selectColumnsValue (self : DataFrameSchema) (columns : List PKey) :
    Except PanderaError DataFrameSchema := do
  let new_schema := self
  let not_in_cols := columns.filter
    (fun x => decide (x ∉ Dict.keys new_schema.columns))
  if not_in_cols ≠ [] then
    throw (PanderaError.schemaInitError keysNotFoundMsg)
  let new_columns := self.columns.filter (fun kv => decide (kv.1 ∈ columns))
  Except.ok { new_schema with columns := new_columns }

/-- `select_columns` (schema.py lines 882-943). -/
def DataFrameSchema.select_columns (self : DataFrameSchema)
    (columns : List PKey) : Except PanderaError TransformResult := do
  let result ← selectColumnsValue self columns
  Except.ok ⟨result, true⟩

/-- `remove_columns` as inherited by `MultiIndex` and called on the index
schema by `reset_index` (container.py line 272): deep-copy (the `indexes`
list is copied unchanged), check the keys, pop them from the column
mapping. -/
def MultiIndexSchema.remove_columns (self : MultiIndexSchema)
    (cols_to_remove : List PKey) : Except PanderaError MultiIndexSchema := do
  let schema_copy := self
  let not_in_cols := cols_to_remove.filter
    (fun x => decide (x ∉ Dict.keys schema_copy.columns))
  if not_in_cols ≠ [] then
    throw (PanderaError.schemaInitError keysNotFoundMsg)
  let newCols ← cols_to_remove.foldlM Dict.pop schema_copy.columns
  Except.ok { schema_copy with columns := newCols }

/-- The `Index` built for one key by `set_index` (container.py lines
135-145): dtype, checks, nullable, unique and coerce taken from the column,
name set to the key. -/
def columnAsIndex (col : PKey) (c : Column) : Index :=
  { dtype := c.dtype, name := col, checks := c.checks, nullable := c.nullable,
    unique := c.unique, coerce := c.coerce }

/-- Value computed by `set_index` (container.py lines 25-155): check the
keys, build the new index list (replacing or appending to the existing
index per `append`), convert each keyed column to an `Index`, store a
single `Index` or a `MultiIndex`, and (per `drop`) remove the moved
columns. -/
def setIndexValue (self : DataFrameSchema) (keys : List PKey) (drop : Bool)
    (append : Bool) : Except PanderaError DataFrameSchema := do
  let new_schema := self
  let keys_temp := keys
  let not_in_cols := keys_temp.filter
    (fun x => decide (x ∉ Dict.keys new_schema.columns))
  if not_in_cols ≠ [] then
    throw (PanderaError.schemaInitError keysNotFoundMsg)
  let ind_list : List Index :=
    match append, new_schema.index with
    | false, _ => []
    | true, Option.none => []
    | true, Option.some (SchemaIndex.multi m) => m.indexes
    | true, Option.some (SchemaIndex.index i) => [i]
  let ind_list ← keys_temp.foldlM (fun acc col => do
      match Dict.get? new_schema.columns col with
      | Option.some c => Except.ok (acc ++ [columnAsIndex col c])
      | Option.none => throw (PanderaError.keyError "key not found")) ind_list
  let newIndex ← match ind_list with
    | [i] => Except.ok (SchemaIndex.index i)
    | l => do
      let m ← MultiIndexSchema.init l false Strict.strictFalse Option.none
        true Option.none
      Except.ok (SchemaIndex.multi m)
  let new_schema := { new_schema with index := Option.some newIndex }
  if drop then
    removeColumnsValue new_schema keys_temp
  else
    Except.ok new_schema

/-- `set_index` (container.py lines 25-155). -/
def DataFrameSchema.set_index (self : DataFrameSchema) (keys : List PKey)
    (drop : Bool) (append : Bool) : Except PanderaError TransformResult := do
  let result ← setIndexValue self keys drop append
  Except.ok ⟨result, true⟩

/-- The names of a schema index (`new_schema.index.names` at container.py
line 252): the MultiIndex `names` property, or the spec-modelled singleton
for a single `Index`. -/
def SchemaIndex.names : SchemaIndex → List PKey
  | SchemaIndex.index i => i.names
  | SchemaIndex.multi m => m.names

/-- The `Column` built by `reset_index` from an index level (container.py
lines 300-310): dtype, checks, nullable, unique, coerce and name taken from
the level's field record (`Column` duck-typed for MultiIndex levels,
`Index` for a single index), every other argument at its default. -/
def fieldAsColumn (dtype : Option DType) (checks : List Check)
    (nullable unique coerce : Bool) (name : PKey) : Column :=
  { dtype, checks, nullable, unique, coerce, name }

/-- Value computed by `reset_index` (container.py lines 238-315) on the
non-trivial path (`level` is not the empty list): deep-copy; fail with
`SchemaInitError` when no index is set; resolve the levels (all index names
when `level is None`, de-duplicated otherwise); check them against the
index; compute the reduced index (dropping it entirely for a single
`Index`, collapsing a one-level remainder to a single `Index`); unless
`drop`, re-add the reset levels as columns via `add_columns`. -/
def resetIndexValue (self : DataFrameSchema) (level : Option (List PKey))
    (drop : Bool) : Except PanderaError DataFrameSchema := do
  let new_schema := self
  let Option.some idx := new_schema.index
    | throw (PanderaError.schemaInitError
        "There is currently no index set for this schema.")
  let level_temp : List PKey :=
    match level with
    | Option.none => idx.names
    | Option.some l => l.dedup
  let level_not_in_index : List PKey :=
    match idx with
    | SchemaIndex.multi m =>
      if level_temp ≠ [] then
        level_temp.filter (fun x => decide (x ∉ m.names))
      else level_temp
    | SchemaIndex.index i =>
      if level_temp = [i.name] then [] else level_temp
  if level_not_in_index ≠ [] then
    throw (PanderaError.schemaInitError keysNotFoundMsg)
  let newIndexReduced : Option MultiIndexSchema ←
    match idx with
    | SchemaIndex.index _ => pure Option.none
    | SchemaIndex.multi m =>
      if level_temp = [] then pure Option.none
      else do pure (Option.some (← m.remove_columns level_temp))
  let new_index : Option SchemaIndex :=
    match newIndexReduced with
    | Option.none => Option.none
    | Option.some m =>
      match m.columns with
      | [(_, c)] => Option.some (SchemaIndex.index
          { dtype := c.dtype, checks := c.checks, nullable := c.nullable,
            unique := c.unique, coerce := c.coerce, name := c.name })
      | [] => Option.none
      | _ => Option.some (SchemaIndex.multi m)
  let new_schema ←
    if ¬ drop then do
      let additional_columns : Except PanderaError (Dict Column) :=
        match idx with
        | SchemaIndex.multi m => level_temp.foldlM (fun acc col => do
            match Dict.get? m.columns col with
            | Option.some v => Except.ok (acc ++
                [(col, fieldAsColumn v.dtype v.checks v.nullable v.unique
                  v.coerce v.name)])
            | Option.none => throw (PanderaError.attributeError
                "NoneType object has no schema attributes")) []
        | SchemaIndex.index i => Except.ok
            [(i.name, fieldAsColumn i.dtype i.checks i.nullable i.unique
              i.coerce i.name)]
      let add ← additional_columns
      addColumnsValue new_schema add
    else pure new_schema
  Except.ok { new_schema with index := new_index }

/-- `reset_index` (container.py lines 157-315).  The explicit empty-list
check at lines 240-241 returns the receiver object itself (`return self`),
not a copy: the `fresh` flag is `false` only there. -/
def DataFrameSchema.reset_index (self : DataFrameSchema)
    (level : Option (List PKey)) (drop : Bool) :
    Except PanderaError TransformResult :=
  if level = Option.some [] then
    Except.ok ⟨self, false⟩
  else do
    let result ← resetIndexValue self level drop
    Except.ok ⟨result, true⟩

/-! The pyspark builtin `equal_to` check
(`pandera/backends/pyspark/builtin_checks.py` lines 20-100). -/

/-- The PySpark datatype classes the check decorator can compare against. -/
inductive PySparkType where
  | long
  | integer
  | string
  | double
  | boolean
deriving DecidableEq, Repr

/-- A scalar cell value of a data container column. -/
inductive PyVal where
  | int (i : Int)
  | str (s : String)
  | bool (b : Bool)
deriving DecidableEq, Repr

/-- The `PysparkDataframeColumnObject` view a builtin check receives: the
checked column's datatype and its cell values. -/
structure PysparkDataframeColumnObject where
  datatype : PySparkType
  column : List PyVal
deriving DecidableEq, Repr

/-- pyspark `equal_to` (builtin_checks.py lines 86-100) together with its
`register_input_datatypes` wrapper (lines 53-83): the wrapper raises
`TypeError` unless the checked column's datatype is `LongType` or
`IntegerType`; the body passes iff filtering the column to rows different
from `value` leaves nothing (`filter(~(col == value)).limit(1).count() ==
0`). -/
def equal_to (data : PysparkDataframeColumnObject) (value : PyVal) :
    Except PanderaError Bool :=
  if data.datatype ∈ [PySparkType.long, PySparkType.integer] then
    Except.ok
      (((data.column.filter (fun x => decide (x ≠ value))).take 1).length == 0)
  else
    throw (PanderaError.typeError
      "The function only accepts the following datatypes")

/-! Concrete example values used by counterexamples and witnesses. -/

/-- A plain float column. -/
def colFloat : Column := { dtype := Option.some "float64" }

/-- A plain string column. -/
def colStr : Column := { dtype := Option.some "str" }

/-- A two-column example schema (columns `a` and `b`, no index), as produced
by the constructor: column names bound to their keys. -/
def exampleSchema : DataFrameSchema :=
  { columns := [(PKey.str "a", colFloat.set_name (PKey.str "a")),
                (PKey.str "b", colStr.set_name (PKey.str "b"))],
    checks := [], index := Option.none, dtype := Option.none, coerce := false,
    strict := Strict.strictFalse, name := Option.none, ordered := false,
    unique := Option.none, report_duplicates := "all",
    unique_column_names := false, add_missing_columns := false,
    title := Option.none, description := Option.none, metadata := Option.none,
    drop_invalid_rows := false }

/-- The example schema with a single integer index named `i`. -/
def exampleSchemaWithIndex : DataFrameSchema :=
  { exampleSchema with
    index := Option.some (SchemaIndex.index
      { dtype := Option.some "int64", name := PKey.str "i" }) }

/-- A column carrying a check grouped by column `d`. -/
def colGroupbyD : Column :=
  { dtype := Option.some "float64",
    checks := [{ name := "mean_check", groupby := Groupby.cols ["d"] }] }

/-- A valid schema with columns `c` (carrying a check grouped by `d`) and
`d`: the groupby reference exists, so construction succeeds. -/
def schemaCD : DataFrameSchema :=
  { columns := [(PKey.str "c", colGroupbyD.set_name (PKey.str "c")),
                (PKey.str "d", colFloat.set_name (PKey.str "d"))],
    checks := [], index := Option.none, dtype := Option.none, coerce := false,
    strict := Strict.strictFalse, name := Option.none, ordered := false,
    unique := Option.none, report_duplicates := "all",
    unique_column_names := false, add_missing_columns := false,
    title := Option.none, description := Option.none, metadata := Option.none,
    drop_invalid_rows := false }

/-- The update dictionary `{"name": None}`: the `name` keyword is supplied
with the falsy value `None`. -/
def updateNameNone : ColumnUpdate :=
  { nameProvided := true, nameValue := PKey.none }

/-- A schema with a plain float column `c` and a string column `d`. -/
def schemaWithC : DataFrameSchema :=
  { columns := [(PKey.str "c", colFloat.set_name (PKey.str "c")),
                (PKey.str "d", colStr.set_name (PKey.str "d"))],
    checks := [], index := Option.none, dtype := Option.none, coerce := false,
    strict := Strict.strictFalse, name := Option.none, ordered := false,
    unique := Option.none, report_duplicates := "all",
    unique_column_names := false, add_missing_columns := false,
    title := Option.none, description := Option.none, metadata := Option.none,
    drop_invalid_rows := false }

end Pandera

deriving instance DecidableEq for Except

namespace Pandera

/-! Basic lemmas about the `Except` monad and the dict model. -/

theorem exceptOkBind {α β : Type} (a : α) (f : α → Except PanderaError β) :
    (Except.ok a >>= f) = f a := rfl

theorem exceptErrorBind {α β : Type} (e : PanderaError)
    (f : α → Except PanderaError β) :
    ((Except.error e : Except PanderaError α) >>= f) = Except.error e := rfl

theorem exceptPureBind {α β : Type} (a : α) (f : α → Except PanderaError β) :
    ((pure a : Except PanderaError α) >>= f) = f a := rfl

theorem Dict.keys_append {α : Type} (a b : Dict α) :
    Dict.keys (a ++ b) = Dict.keys a ++ Dict.keys b :=
  List.map_append _ _ _

theorem Dict.keys_cons {α : Type} (kv : PKey × α) (rest : Dict α) :
    Dict.keys (kv :: rest) = kv.1 :: Dict.keys rest := rfl

theorem Dict.get?_mem_keys {α : Type} {m : Dict α} {k : PKey} {v : α}
    (h : Dict.get? m k = Option.some v) : k ∈ Dict.keys m := by
  induction m with
  | nil => exact absurd h (by simp [Dict.get?])
  | cons kv rest ih =>
    rw [Dict.get?] at h
    rw [Dict.keys_cons, List.mem_cons]
    by_cases hk : kv.1 = k
    · exact Or.inl hk.symm
    · rw [if_neg hk] at h
      exact Or.inr (ih h)

theorem Dict.get?_eq_none_of_not_mem {α : Type} {m : Dict α} {k : PKey}
    (h : k ∉ Dict.keys m) : Dict.get? m k = Option.none := by
  induction m with
  | nil => rfl
  | cons kv rest ih =>
    rw [Dict.keys_cons, List.mem_cons, not_or] at h
    rw [Dict.get?, if_neg (fun hk => h.1 hk.symm)]
    exact ih h.2

theorem Dict.get?_append_right {α : Type} {a : Dict α} (b : Dict α) {k : PKey}
    (h : k ∉ Dict.keys a) : Dict.get? (a ++ b) k = Dict.get? b k := by
  induction a with
  | nil => rfl
  | cons kv rest ih =>
    rw [Dict.keys_cons, List.mem_cons, not_or] at h
    rw [List.cons_append, Dict.get?, if_neg (fun hk => h.1 hk.symm)]
    exact ih h.2

theorem Dict.insert_of_not_mem {α : Type} {m : Dict α} {k : PKey} (v : α)
    (h : k ∉ Dict.keys m) : Dict.insert m k v = m ++ [(k, v)] := by
  rw [Dict.insert, if_neg h]

theorem Dict.merge_eq_append {α : Type} (b : Dict α) (a : Dict α)
    (hnodup : (Dict.keys b).Nodup) (hdisj : ∀ k ∈ Dict.keys b, k ∉ Dict.keys a) :
    Dict.merge a b = a ++ b := by
  induction b generalizing a with
  | nil => simp [Dict.merge]
  | cons kv rest ih =>
    rw [Dict.keys_cons] at hnodup hdisj
    obtain ⟨hnotrest, hnodup'⟩ := List.nodup_cons.mp hnodup
    have hk : kv.1 ∉ Dict.keys a := hdisj kv.1 (List.mem_cons_self _ _)
    have step : Dict.merge a (kv :: rest) = Dict.merge (a ++ [(kv.1, kv.2)]) rest := by
      simp only [Dict.merge, List.foldl_cons]
      rw [Dict.insert_of_not_mem kv.2 hk]
    have hdisj' : ∀ k ∈ Dict.keys rest, k ∉ Dict.keys (a ++ [(kv.1, kv.2)]) := by
      intro k hkr
      rw [Dict.keys_append, List.mem_append, not_or]
      refine ⟨hdisj k (List.mem_cons_of_mem _ hkr), ?_⟩
      simp only [Dict.keys, List.map_cons, List.map_nil, List.mem_singleton]
      exact fun hkk => hnotrest (hkk ▸ hkr)
    rw [step, ih (a ++ [(kv.1, kv.2)]) hnodup' hdisj']
    simp

theorem Dict.filter_ne_of_not_mem {α : Type} {m : Dict α} {k : PKey}
    (h : k ∉ Dict.keys m) :
    m.filter (fun kv => decide (kv.1 ≠ k)) = m := by
  induction m with
  | nil => rfl
  | cons kv rest ih =>
    rw [Dict.keys_cons, List.mem_cons, not_or] at h
    rw [List.filter_cons, if_pos (by simpa using fun hk => h.1 hk.symm), ih h.2]

theorem Dict.not_mem_keys_filter_ne {α : Type} (m : Dict α) (k : PKey) :
    k ∉ Dict.keys (m.filter (fun kv => decide (kv.1 ≠ k))) := by
  induction m with
  | nil => simp [Dict.keys]
  | cons kv rest ih =>
    rw [List.filter_cons]
    by_cases hk : kv.1 = k
    · simpa [hk] using ih
    · rw [if_pos (by simpa using hk)]
      rw [Dict.keys_cons, List.mem_cons, not_or]
      exact ⟨fun hkk => hk hkk.symm, ih⟩

theorem Dict.pop_of_mem {α : Type} {m : Dict α} {k : PKey}
    (h : k ∈ Dict.keys m) :
    Dict.pop m k = Except.ok (m.filter (fun kv => decide (kv.1 ≠ k))) := by
  rw [Dict.pop, if_pos h]

theorem Dict.foldlM_pop_append {α : Type} (b : Dict α) (a : Dict α)
    (hnodup : (Dict.keys b).Nodup) (hdisj : ∀ k ∈ Dict.keys b, k ∉ Dict.keys a) :
    (Dict.keys b).foldlM Dict.pop (a ++ b) = Except.ok a := by
  induction b generalizing a with
  | nil => rw [List.append_nil]; rfl
  | cons kv rest ih =>
    rw [Dict.keys_cons] at hnodup hdisj
    obtain ⟨hnotrest, hnodup'⟩ := List.nodup_cons.mp hnodup
    have hk : kv.1 ∉ Dict.keys a := hdisj kv.1 (List.mem_cons_self _ _)
    have hmem : kv.1 ∈ Dict.keys (a ++ kv :: rest) := by
      rw [Dict.keys_append, List.mem_append, Dict.keys_cons]
      exact Or.inr (List.mem_cons_self _ _)
    have hfilter : (a ++ kv :: rest).filter (fun p => decide (p.1 ≠ kv.1)) = a ++ rest := by
      rw [List.filter_append, Dict.filter_ne_of_not_mem hk, List.filter_cons,
        if_neg (by simp), Dict.filter_ne_of_not_mem hnotrest]
    show ((kv.1 :: Dict.keys rest).foldlM Dict.pop (a ++ kv :: rest)) = Except.ok a
    rw [List.foldlM_cons, Dict.pop_of_mem hmem, hfilter, exceptOkBind]
    exact ih a hnodup' (fun k hkr => hdisj k (List.mem_cons_of_mem _ hkr))

/-! Characterization of the construction-time groupby validation. -/

/-- The property `_validate_columns` enforces on one check. -/
def groupbyRefsOk (keys : List PKey) (c : Check) : Prop :=
  ∀ gs, c.groupby = Groupby.cols gs → ∀ g ∈ gs, PKey.str g ∈ keys

theorem validateColumnChecks_ok_iff (keys : List PKey) (cs : List Check) :
    validateColumnChecks keys cs = Except.ok () ↔ ∀ c ∈ cs, groupbyRefsOk keys c := by
  induction cs with
  | nil => simp [validateColumnChecks]
  | cons check rest ih =>
    rw [validateColumnChecks]
    cases hgb : check.groupby with
    | none =>
      dsimp only
      rw [ih]
      constructor
      · intro h c hc
        rcases List.mem_cons.mp hc with rfl | hc
        · intro gs hgs; rw [hgb] at hgs; exact absurd hgs (by simp)
        · exact h c hc
      · intro h c hc; exact h c (List.mem_cons_of_mem _ hc)
    | callable =>
      dsimp only
      rw [ih]
      constructor
      · intro h c hc
        rcases List.mem_cons.mp hc with rfl | hc
        · intro gs hgs; rw [hgb] at hgs; exact absurd hgs (by simp)
        · exact h c hc
      · intro h c hc; exact h c (List.mem_cons_of_mem _ hc)
    | cols gs =>
      dsimp only
      by_cases hfil : gs.filter (fun c => decide (PKey.str c ∉ keys)) = []
      · rw [if_pos hfil, ih]
        have hall : ∀ g ∈ gs, PKey.str g ∈ keys := by
          intro g hg
          have := List.filter_eq_nil_iff.mp hfil g hg
          simpa using this
        constructor
        · intro h c hc
          rcases List.mem_cons.mp hc with rfl | hc
          · intro gs' hgs'
            rw [hgb] at hgs'
            obtain rfl : gs = gs' := by injection hgs'
            exact hall
          · exact h c hc
        · intro h c hc; exact h c (List.mem_cons_of_mem _ hc)
      · rw [if_neg hfil]
        constructor
        · intro h; exact absurd h (by simp)
        · intro h
          obtain ⟨x, hx⟩ := List.exists_mem_of_ne_nil _ hfil
          obtain ⟨hg, hbad⟩ := List.mem_filter.mp hx
          exact absurd (h check (List.mem_cons_self _ _) gs hgb x hg) (by simpa using hbad)

theorem validateColumnChecks_cases (keys : List PKey) (cs : List Check) :
    validateColumnChecks keys cs = Except.ok () ∨
      validateColumnChecks keys cs =
        Except.error (PanderaError.schemaInitError groupbyErrMsg) := by
  induction cs with
  | nil => exact Or.inl rfl
  | cons check rest ih =>
    rw [validateColumnChecks]
    cases check.groupby with
    | none => exact ih
    | callable => exact ih
    | cols gs =>
      dsimp only
      by_cases hfil : gs.filter (fun c => decide (PKey.str c ∉ keys)) = []
      · rw [if_pos hfil]; exact ih
      · rw [if_neg hfil]; exact Or.inr rfl

theorem validateColumnsAux_ok_iff (keys : List PKey) (l : List (PKey × Column)) :
    validateColumnsAux keys l = Except.ok () ↔
      ∀ kv ∈ l, validateColumnChecks keys kv.2.checks = Except.ok () := by
  induction l with
  | nil => simp [validateColumnsAux]
  | cons kv rest ih =>
    obtain ⟨k, col⟩ := kv
    rw [validateColumnsAux]
    cases h : validateColumnChecks keys col.checks with
    | ok u =>
      obtain rfl : u = () := rfl
      rw [exceptOkBind, ih]
      constructor
      · intro hall kv' hkv'
        rcases List.mem_cons.mp hkv' with rfl | hkv'
        · exact h
        · exact hall kv' hkv'
      · intro hall kv' hkv'; exact hall kv' (List.mem_cons_of_mem _ hkv')
    | error e =>
      rw [exceptErrorBind]
      constructor
      · intro hcontra; exact absurd hcontra (by simp)
      · intro hall
        exact absurd (hall (k, col) (List.mem_cons_self _ _)) (by simp [h])

theorem validateColumnsAux_cases (keys : List PKey) (l : List (PKey × Column)) :
    validateColumnsAux keys l = Except.ok () ∨
      validateColumnsAux keys l =
        Except.error (PanderaError.schemaInitError groupbyErrMsg) := by
  induction l with
  | nil => exact Or.inl rfl
  | cons kv rest ih =>
    obtain ⟨k, col⟩ := kv
    rw [validateColumnsAux]
    rcases validateColumnChecks_cases keys col.checks with h | h
    · rw [h, exceptOkBind]; exact ih
    · rw [h, exceptErrorBind]; exact Or.inr rfl

theorem validateColumns_ok_iff (d : Dict Column) :
    validateColumns d = Except.ok () ↔
      ∀ kv ∈ d, ∀ c ∈ kv.2.checks, groupbyRefsOk (Dict.keys d) c := by
  rw [validateColumns, validateColumnsAux_ok_iff]
  constructor
  · intro h kv hkv c hc
    exact (validateColumnChecks_ok_iff _ _).mp (h kv hkv) c hc
  · intro h kv hkv
    exact (validateColumnChecks_ok_iff _ _).mpr (h kv hkv)

theorem validateColumns_cases (d : Dict Column) :
    validateColumns d = Except.ok () ∨
      validateColumns d =
        Except.error (PanderaError.schemaInitError groupbyErrMsg) :=
  validateColumnsAux_cases _ _

/-! Characterization of the constructor and of `add_columns`. -/

theorem init_ok (columns : Dict Column) (checks : List Check)
    (index : Option SchemaIndex) (dtype : Option DType) (coerce : Bool)
    (strict : Strict) (name : Option String) (ordered : Bool)
    (unique : Option (List String)) (report_duplicates : String)
    (unique_column_names : Bool) (add_missing_columns : Bool)
    (title : Option String) (description : Option String)
    (metadata : Option String) (drop_invalid_rows : Bool)
    (h : validateColumns columns = Except.ok ()) :
    DataFrameSchema.init columns checks index dtype coerce strict name ordered
      unique report_duplicates unique_column_names add_missing_columns title
      description metadata drop_invalid_rows = Except.ok
      { columns := columnsRenamed columns, checks, index, dtype, coerce,
        strict, name, ordered, unique, report_duplicates, unique_column_names,
        add_missing_columns, title, description, metadata, drop_invalid_rows } := by
  rw [DataFrameSchema.init, h, exceptOkBind]

theorem init_error (columns : Dict Column) (checks : List Check)
    (index : Option SchemaIndex) (dtype : Option DType) (coerce : Bool)
    (strict : Strict) (name : Option String) (ordered : Bool)
    (unique : Option (List String)) (report_duplicates : String)
    (unique_column_names : Bool) (add_missing_columns : Bool)
    (title : Option String) (description : Option String)
    (metadata : Option String) (drop_invalid_rows : Bool) (e : PanderaError)
    (h : validateColumns columns = Except.error e) :
    DataFrameSchema.init columns checks index dtype coerce strict name ordered
      unique report_duplicates unique_column_names add_missing_columns title
      description metadata drop_invalid_rows = Except.error e := by
  rw [DataFrameSchema.init, h, exceptErrorBind]

theorem ofColumns_ok (columns : Dict Column)
    (h : validateColumns columns = Except.ok ()) :
    DataFrameSchema.ofColumns columns = Except.ok
      { columns := columnsRenamed columns, checks := [], index := Option.none,
        dtype := Option.none, coerce := false, strict := Strict.strictFalse,
        name := Option.none, ordered := false, unique := Option.none,
        report_duplicates := "all", unique_column_names := false,
        add_missing_columns := false, title := Option.none,
        description := Option.none, metadata := Option.none,
        drop_invalid_rows := false } := by
  rw [DataFrameSchema.ofColumns]
  exact init_ok _ _ _ _ _ _ _ _ _ _ _ _ _ _ _ _ h

theorem addColumnsValue_ok (self : DataFrameSchema) (extra : Dict Column)
    (h : validateColumns extra = Except.ok ()) :
    addColumnsValue self extra = Except.ok
      { self with columns := Dict.merge self.columns (columnsRenamed extra) } := by
  rw [addColumnsValue, ofColumns_ok extra h]
  rfl

theorem addColumnsValue_error (self : DataFrameSchema) (extra : Dict Column)
    (e : PanderaError) (h : validateColumns extra = Except.error e) :
    addColumnsValue self extra = Except.error e := by
  rw [addColumnsValue, DataFrameSchema.ofColumns,
    init_error _ _ _ _ _ _ _ _ _ _ _ _ _ _ _ _ e h]
  rfl

/-- A successful `fooValue >>= fun result => ok ⟨result, true⟩` wrapper call
always reports a freshly allocated result. -/
theorem wrapperFreshOk {v : Except PanderaError DataFrameSchema}
    {r : TransformResult}
    (h : (v >>= fun result => Except.ok (⟨result, true⟩ : TransformResult)) =
      Except.ok r) : r.fresh = true := by
  cases v with
  | ok s =>
    rw [exceptOkBind] at h
    cases h
    rfl
  | error e =>
    rw [exceptErrorBind] at h
    exact absurd h (by simp)

/-! Claim theorems. -/

/-- C9: the duplicate-detection parameter conversion is total over the
three duplicate-reporting modes and rejects everything else:
`convert_uniquesettings` returns `"first"` for `"exclude_first"`, `"last"`
for `"exclude_last"`, `False` for `"all"`, and raises `ValueError` for
every other input value. -/
theorem convert_uniquesettings_spec :
    convert_uniquesettings "exclude_first" = Except.ok (KeepSetting.strArg "first") ∧
    convert_uniquesettings "exclude_last" = Except.ok (KeepSetting.strArg "last") ∧
    convert_uniquesettings "all" = Except.ok (KeepSetting.boolArg false) ∧
    ∀ s : String, s ≠ "exclude_first" → s ≠ "exclude_last" → s ≠ "all" →
      convert_uniquesettings s = Except.error
        (PanderaError.valueError "is not a recognized report_duplicates value") := by
  refine ⟨rfl, rfl, rfl, ?_⟩
  intro s h1 h2 h3
  rw [convert_uniquesettings, if_neg h1, if_neg h2, if_neg h3]

/-- Witness for C9: the conversion applied to the unrecognized input
`"first"` raises `ValueError`. -/
theorem convert_uniquesettings_spec_witness :
    convert_uniquesettings "first" = Except.error
      (PanderaError.valueError "is not a recognized report_duplicates value") :=
  convert_uniquesettings_spec.2.2.2 "first" (by decide) (by decide) (by decide)

/-- C8 counterexample: on a string-typed column whose single cell equals
the comparison value, the claim predicts a passing check that does not
raise; the pyspark `equal_to` instead raises `TypeError`, because its
`register_input_datatypes` wrapper only admits `LongType` and
`IntegerType` columns. -/
theorem equal_to_counterexample :
    equal_to { datatype := PySparkType.string, column := [PyVal.str "a"] }
        (PyVal.str "a") =
      Except.error (PanderaError.typeError
        "The function only accepts the following datatypes") := by
  rfl

/-- C8 (amended): for columns whose datatype is `LongType` or
`IntegerType`, the pyspark `equal_to` passes iff every element of the
checked column equals the given value; for every other column datatype it
raises `TypeError` instead of evaluating the predicate. -/
theorem equal_to_spec (data : PysparkDataframeColumnObject) (value : PyVal) :
    (data.datatype = PySparkType.long ∨ data.datatype = PySparkType.integer →
      equal_to data value = Except.ok (decide (∀ x ∈ data.column, x = value))) ∧
    (data.datatype ≠ PySparkType.long → data.datatype ≠ PySparkType.integer →
      equal_to data value = Except.error (PanderaError.typeError
        "The function only accepts the following datatypes")) := by
  constructor
  · intro hmem
    rw [equal_to, if_pos (by rcases hmem with h | h <;> simp [h])]
    congr 1
    by_cases hall : ∀ x ∈ data.column, x = value
    · have hfil : data.column.filter (fun x => decide (x ≠ value)) = [] :=
        List.filter_eq_nil_iff.mpr (fun a ha => by simpa using hall a ha)
      rw [hfil]
      exact (decide_eq_true hall).symm
    · have hfilne : data.column.filter (fun x => decide (x ≠ value)) ≠ [] := by
        intro hnil
        exact hall (fun x hx => by simpa using List.filter_eq_nil_iff.mp hnil x hx)
      rcases hcase : data.column.filter (fun x => decide (x ≠ value)) with _ | ⟨y, ys⟩
      · exact absurd hcase hfilne
      · exact (decide_eq_false hall).symm
  · intro h1 h2
    rw [equal_to, if_neg (by simp [h1, h2])]
    rfl

/-- Witness for C8 (amended): a `LongType` column whose cells all equal
the comparison value passes. -/
theorem equal_to_spec_witness :
    equal_to { datatype := PySparkType.long,
               column := [PyVal.int 2, PyVal.int 2] } (PyVal.int 2) =
      Except.ok true := by
  have h := (equal_to_spec
    { datatype := PySparkType.long, column := [PyVal.int 2, PyVal.int 2] }
    (PyVal.int 2)).1 (Or.inl rfl)
  rw [h]
  decide

/-- C4 (code bug): `update_column` applied to a column name absent from the
schema raises `ValueError`, although its own docstring (schema.py lines
657-658), the spec and the claim promise `SchemaInitError`; the sibling
transform `remove_columns` does raise `SchemaInitError` at the same
missing name. -/
theorem update_column_missing_raises_valueerror :
    exampleSchema.update_column (PKey.str "missing") ColumnUpdate.empty =
      Except.error (PanderaError.valueError "column not in schema") ∧
    exampleSchema.remove_columns [PKey.str "missing"] =
      Except.error (PanderaError.schemaInitError keysNotFoundMsg) := by
  exact ⟨rfl, rfl⟩

/-- C10 (code bug): the `update_columns` name guard tests the supplied
`name` value for Python truthiness (schema.py line 776), so the falsy
value `None` slips past it: the transform succeeds and stores under key
`"a"` a column whose `name` attribute is `None`, breaking the
name-equals-key invariant that the constructor and `rename_columns`
otherwise maintain. -/
theorem update_columns_falsy_name_breaks_invariant :
    (exampleSchema.update_columns [(PKey.str "a", updateNameNone)]).map
        (fun r => (Dict.get? r.result.columns (PKey.str "a")).map Column.name) =
      Except.ok (Option.some PKey.none) ∧
    PKey.none ≠ PKey.str "a" := by
  decide

/-- C1 counterexample: `reset_index` called with an empty `level` list on a
schema with an index returns the receiver object itself (`return self`,
container.py lines 240-241) rather than a new schema; the `fresh := false`
flag records that the returned object is the receiver, falsifying "always
returns a new TableSchema object". -/
theorem reset_index_empty_level_counterexample :
    exampleSchemaWithIndex.reset_index (Option.some []) false =
      Except.ok ⟨exampleSchemaWithIndex, false⟩ := by
  rfl

/-- C1 (amended): every schema-transform call that succeeds leaves the
receiver unchanged (inherent to the embedding: every mutation in the
source targets a `copy.deepcopy` of the receiver, never the receiver) and
returns a freshly created schema object, except `reset_index` with an
empty `level` list, which returns the receiver object itself (its value
likewise unchanged). -/
theorem transforms_return_fresh (s : DataFrameSchema) :
    (∀ extra r, s.add_columns extra = Except.ok r → r.fresh = true) ∧
    (∀ cols r, s.remove_columns cols = Except.ok r → r.fresh = true) ∧
    (∀ cn kw r, s.update_column cn kw = Except.ok r → r.fresh = true) ∧
    (∀ ud r, s.update_columns ud = Except.ok r → r.fresh = true) ∧
    (∀ rd r, s.rename_columns rd = Except.ok r → r.fresh = true) ∧
    (∀ cols r, s.select_columns cols = Except.ok r → r.fresh = true) ∧
    (∀ keys drop append r, s.set_index keys drop append = Except.ok r →
      r.fresh = true) ∧
    (∀ level drop r, s.reset_index level drop = Except.ok r →
      (level = Option.some [] → r.fresh = false ∧ r.result = s) ∧
      (level ≠ Option.some [] → r.fresh = true)) := by
  refine ⟨?_, ?_, ?_, ?_, ?_, ?_, ?_, ?_⟩
  · intro extra r h; exact wrapperFreshOk h
  · intro cols r h; exact wrapperFreshOk h
  · intro cn kw r h; exact wrapperFreshOk h
  · intro ud r h; exact wrapperFreshOk h
  · intro rd r h; exact wrapperFreshOk h
  · intro cols r h; exact wrapperFreshOk h
  · intro keys drop append r h; exact wrapperFreshOk h
  · intro level drop r h
    rw [DataFrameSchema.reset_index] at h
    by_cases hlvl : level = Option.some []
    · rw [if_pos hlvl] at h
      cases h
      exact ⟨fun _ => ⟨rfl, rfl⟩, fun hne => absurd hlvl hne⟩
    · rw [if_neg hlvl] at h
      exact ⟨fun heq => absurd heq hlvl, fun _ => wrapperFreshOk h⟩

/-- Witness for C1 (amended): `add_columns` with no extra columns on the
example schema succeeds and reports a fresh result. -/
theorem transforms_return_fresh_witness :
    (⟨exampleSchema, true⟩ : TransformResult).fresh = true :=
  (transforms_return_fresh exampleSchema).1 [] ⟨exampleSchema, true⟩ (by decide)

/-! Evaluation lemmas for `rename_columns`. -/

theorem renameColumnsValue_error_notin (s : DataFrameSchema) (m : Dict PKey)
    (h : (Dict.keys m).filter (fun x => decide (x ∉ Dict.keys s.columns)) ≠ []) :
    renameColumnsValue s m =
      Except.error (PanderaError.schemaInitError keysNotFoundMsg) := by
  rw [renameColumnsValue]
  dsimp only
  rw [if_pos h]
  rfl

theorem renameColumnsValue_error_already (s : DataFrameSchema) (m : Dict PKey)
    (h1 : (Dict.keys m).filter (fun x => decide (x ∉ Dict.keys s.columns)) = [])
    (h2 : ((m.filter (fun kv => decide (kv.1 ≠ kv.2))).map Prod.snd).filter
      (fun x => decide (x ∈ Dict.keys s.columns)) ≠ []) :
    renameColumnsValue s m =
      Except.error (PanderaError.schemaInitError
        "Keys already found in schema columns!") := by
  rw [renameColumnsValue]
  dsimp only
  rw [if_neg (by rw [h1]; simp), if_pos h2]
  rfl

theorem renameColumnsValue_ok (s : DataFrameSchema) (m : Dict PKey)
    (h1 : (Dict.keys m).filter (fun x => decide (x ∉ Dict.keys s.columns)) = [])
    (h2 : ((m.filter (fun kv => decide (kv.1 ≠ kv.2))).map Prod.snd).filter
      (fun x => decide (x ∈ Dict.keys s.columns)) = []) :
    renameColumnsValue s m = Except.ok
      { s with columns := s.columns.map (fun kv =>
        match Dict.get? (m.filter (fun kv => decide (kv.1 ≠ kv.2))) kv.1 with
        | Option.some newName => (newName, kv.2.set_name newName)
        | Option.none => (kv.1, kv.2)) } := by
  rw [renameColumnsValue]
  dsimp only
  rw [if_neg (by rw [h1]; simp), if_neg (by rw [h2]; simp)]
  rfl

/-- C5: `rename_columns` raises `SchemaInitError` whenever the mapping
contains a non-identity pair whose target name is an existing column key,
and an identity mapping over existing columns is a no-op: it succeeds and
returns a (fresh) schema equal to the receiver. -/
theorem rename_columns_spec (s : DataFrameSchema) (m : Dict PKey) :
    ((∃ kv ∈ m, kv.1 ≠ kv.2 ∧ kv.2 ∈ Dict.keys s.columns) →
      ∃ msg, s.rename_columns m =
        Except.error (PanderaError.schemaInitError msg)) ∧
    ((∀ kv ∈ m, kv.1 = kv.2) → (∀ kv ∈ m, kv.1 ∈ Dict.keys s.columns) →
      s.rename_columns m = Except.ok ⟨s, true⟩) := by
  constructor
  · rintro ⟨kv, hkv, hne, htgt⟩
    rw [DataFrameSchema.rename_columns]
    by_cases h1 : (Dict.keys m).filter (fun x => decide (x ∉ Dict.keys s.columns)) = []
    · have hmemfil : kv ∈ m.filter (fun kv => decide (kv.1 ≠ kv.2)) :=
        List.mem_filter.mpr ⟨hkv, by simpa using hne⟩
      have h2 : ((m.filter (fun kv => decide (kv.1 ≠ kv.2))).map Prod.snd).filter
          (fun x => decide (x ∈ Dict.keys s.columns)) ≠ [] := by
        intro hnil
        have hmem2 : kv.2 ∈ (m.filter (fun kv => decide (kv.1 ≠ kv.2))).map Prod.snd :=
          List.mem_map.mpr ⟨kv, hmemfil, rfl⟩
        have := List.filter_eq_nil_iff.mp hnil kv.2 hmem2
        simp at this
        exact this htgt
      refine ⟨"Keys already found in schema columns!", ?_⟩
      rw [renameColumnsValue_error_already s m h1 h2]
      rfl
    · refine ⟨keysNotFoundMsg, ?_⟩
      rw [renameColumnsValue_error_notin s m h1]
      rfl
  · intro hid hmem
    have h1 : (Dict.keys m).filter (fun x => decide (x ∉ Dict.keys s.columns)) = [] := by
      refine List.filter_eq_nil_iff.mpr ?_
      intro x hx
      obtain ⟨kv, hkv, rfl⟩ := List.mem_map.mp hx
      simp
      exact hmem kv hkv
    have hfid : m.filter (fun kv => decide (kv.1 ≠ kv.2)) = [] := by
      refine List.filter_eq_nil_iff.mpr ?_
      intro kv hkv
      simp [hid kv hkv]
    have h2 : ((m.filter (fun kv => decide (kv.1 ≠ kv.2))).map Prod.snd).filter
        (fun x => decide (x ∈ Dict.keys s.columns)) = [] := by
      rw [hfid]
      rfl
    rw [DataFrameSchema.rename_columns, renameColumnsValue_ok s m h1 h2]
    rw [hfid]
    have hmapid : (s.columns.map (fun kv =>
        match Dict.get? ([] : Dict PKey) kv.1 with
        | Option.some newName => (newName, kv.2.set_name newName)
        | Option.none => (kv.1, kv.2))) = s.columns := by
      have hfun : (fun (kv : PKey × Column) =>
          match Dict.get? ([] : Dict PKey) kv.1 with
          | Option.some newName => (newName, kv.2.set_name newName)
          | Option.none => (kv.1, kv.2)) = id := funext fun kv => rfl
      rw [hfun, List.map_id]
    rw [hmapid]
    rfl

/-- Witness for C5: an identity rename of column `a` on the example schema
succeeds and returns a schema equal to the receiver. -/
theorem rename_columns_spec_witness :
    exampleSchema.rename_columns [(PKey.str "a", PKey.str "a")] =
      Except.ok ⟨exampleSchema, true⟩ :=
  (rename_columns_spec exampleSchema [(PKey.str "a", PKey.str "a")]).2
    (by decide) (by decide)

/-- C6: constructing a table schema fails with `SchemaInitError` when some
column carries a check whose list-valued `groupby` mentions a column name
absent from the declared columns; when every groupby reference exists among
the declared columns, construction succeeds (with the attributes stored and
column names rebound to their keys). -/
theorem construction_groupby_spec (columns : Dict Column) (checks : List Check)
    (index : Option SchemaIndex) (dtype : Option DType) (coerce : Bool)
    (strict : Strict) (name : Option String) (ordered : Bool)
    (unique : Option (List String)) (report_duplicates : String)
    (unique_column_names : Bool) (add_missing_columns : Bool)
    (title : Option String) (description : Option String)
    (metadata : Option String) (drop_invalid_rows : Bool) :
    ((∃ kv ∈ columns, ∃ c ∈ kv.2.checks, ∃ gs, c.groupby = Groupby.cols gs ∧
        ∃ g ∈ gs, PKey.str g ∉ Dict.keys columns) →
      DataFrameSchema.init columns checks index dtype coerce strict name
        ordered unique report_duplicates unique_column_names
        add_missing_columns title description metadata drop_invalid_rows =
        Except.error (PanderaError.schemaInitError groupbyErrMsg)) ∧
    ((∀ kv ∈ columns, ∀ c ∈ kv.2.checks, groupbyRefsOk (Dict.keys columns) c) →
      DataFrameSchema.init columns checks index dtype coerce strict name
        ordered unique report_duplicates unique_column_names
        add_missing_columns title description metadata drop_invalid_rows =
        Except.ok
          { columns := columnsRenamed columns, checks, index, dtype, coerce,
            strict, name, ordered, unique, report_duplicates,
            unique_column_names, add_missing_columns, title, description,
            metadata, drop_invalid_rows }) := by
  constructor
  · rintro ⟨kv, hkv, c, hc, gs, hgs, g, hg, hnot⟩
    have hnotok : validateColumns columns ≠ Except.ok () := by
      intro hok
      exact hnot ((validateColumns_ok_iff columns).mp hok kv hkv c hc gs hgs g hg)
    rcases validateColumns_cases columns with h | h
    · exact absurd h hnotok
    · exact init_error _ _ _ _ _ _ _ _ _ _ _ _ _ _ _ _ _ h
  · intro hok
    exact init_ok _ _ _ _ _ _ _ _ _ _ _ _ _ _ _ _
      ((validateColumns_ok_iff columns).mpr hok)

/-- Witness for C6: constructing a schema whose single column `c` carries a
check grouped by the undeclared column `d` fails with `SchemaInitError`;
adding the column `d` makes the same construction succeed. -/
theorem construction_groupby_spec_witness :
    DataFrameSchema.init [(PKey.str "c", colGroupbyD)] [] Option.none
        Option.none false Strict.strictFalse Option.none false Option.none
        "all" false false Option.none Option.none Option.none false =
      Except.error (PanderaError.schemaInitError groupbyErrMsg) ∧
    DataFrameSchema.init
        [(PKey.str "c", colGroupbyD), (PKey.str "d", colFloat)] []
        Option.none Option.none false Strict.strictFalse Option.none false
        Option.none "all" false false Option.none Option.none Option.none
        false =
      Except.ok schemaCD := by
  constructor
  · exact (construction_groupby_spec [(PKey.str "c", colGroupbyD)] []
      Option.none Option.none false Strict.strictFalse Option.none false
      Option.none "all" false false Option.none Option.none Option.none
      false).1
      ⟨(PKey.str "c", colGroupbyD), by decide,
        { name := "mean_check", groupby := Groupby.cols ["d"] }, by decide,
        ["d"], rfl, "d", by decide, by decide⟩
  · have h := (construction_groupby_spec
      [(PKey.str "c", colGroupbyD), (PKey.str "d", colFloat)] []
      Option.none Option.none false Strict.strictFalse Option.none false
      Option.none "all" false false Option.none Option.none Option.none
      false).2 (by
        intro kv hkv c hc gs hgs g hg
        rcases List.mem_cons.mp hkv with rfl | hkv'
        · obtain rfl : c = { name := "mean_check", groupby := Groupby.cols ["d"] } := by
            simpa [colGroupbyD] using hc
          obtain rfl : gs = ["d"] := by
            have h' : Groupby.cols ["d"] = Groupby.cols gs := hgs
            injection h' with h''
            exact h''.symm
          obtain rfl : g = "d" := by simpa using hg
          decide
        · rcases List.mem_cons.mp hkv' with rfl | hkv''
          · exact absurd hc (by simp [colFloat])
          · exact absurd hkv'' (by simp))
    rw [h]
    decide

/-! Lemmas about the MultiIndex column-building loop. -/

theorem keys_columnsRenamed (d : Dict Column) :
    Dict.keys (columnsRenamed d) = Dict.keys d := by
  rw [columnsRenamed, Dict.keys, Dict.keys, List.map_map]
  rfl

theorem mem_insert {α : Type} {kv' : PKey × α} {m : Dict α} {k : PKey} {v : α}
    (h : kv' ∈ Dict.insert m k v) : kv' = (k, v) ∨ kv' ∈ m := by
  rw [Dict.insert] at h
  by_cases hk : k ∈ Dict.keys m
  · rw [if_pos hk] at h
    obtain ⟨kv0, hkv0, heq⟩ := List.mem_map.mp h
    by_cases h0 : kv0.1 = k
    · left
      rw [← heq, if_pos h0]
    · right
      rw [← heq, if_neg h0]
      exact hkv0
  · rw [if_neg hk] at h
    rcases List.mem_append.mp h with h' | h'
    · exact Or.inr h'
    · exact Or.inl (by simpa using h')

theorem multiIndexColumnsAux_error_unnamed (l : List Index) :
    ∀ (i : Nat) (acc : Dict Column), (∃ idx ∈ l, idx.name = PKey.none) →
    multiIndexColumnsAux false i acc l =
      Except.error (PanderaError.schemaInitError multiIndexNameErrMsg) := by
  induction l with
  | nil =>
    rintro i acc ⟨idx, hmem, _⟩
    exact absurd hmem (by simp)
  | cons idx rest ih =>
    rintro i acc ⟨idx', hmem, hname⟩
    rw [multiIndexColumnsAux]
    by_cases hn : idx.name = PKey.none
    · rw [if_pos ⟨by simp, hn⟩]
      rfl
    · rw [if_neg (fun hcond => hn hcond.2)]
      rcases List.mem_cons.mp hmem with rfl | hmem'
      · exact absurd hname hn
      · exact ih (i + 1) _ ⟨idx', hmem', hname⟩

theorem multiIndexColumnsAux_all_unnamed (l : List Index)
    (h : ∀ idx ∈ l, idx.name = PKey.none) :
    ∀ (i : Nat) (acc : Dict Column),
      (∀ k ∈ Dict.keys acc, ∃ j, j < i ∧ k = PKey.nat j) →
      multiIndexColumnsAux true i acc l =
        Except.ok (acc ++ enumIndexColumns i l) := by
  induction l with
  | nil =>
    intro i acc _
    rw [multiIndexColumnsAux, enumIndexColumns, List.append_nil]
  | cons idx rest ih =>
    intro i acc hacc
    have hname := h idx (List.mem_cons_self _ _)
    have hknot : PKey.nat i ∉ Dict.keys acc := by
      intro hmem
      obtain ⟨j, hj, hjeq⟩ := hacc _ hmem
      obtain rfl : i = j := by injection hjeq
      exact absurd hj (lt_irrefl _)
    rw [multiIndexColumnsAux, if_neg (by simp)]
    show multiIndexColumnsAux true (i + 1)
      (Dict.insert acc (if idx.name = PKey.none then PKey.nat i else idx.name)
        (mkIndexColumn idx)) rest = _
    rw [if_pos hname, Dict.insert_of_not_mem _ hknot]
    rw [ih (fun idx' hm => h idx' (List.mem_cons_of_mem _ hm)) (i + 1)
      (acc ++ [(PKey.nat i, mkIndexColumn idx)]) ?_]
    · rw [enumIndexColumns, List.append_assoc, List.singleton_append]
    · intro k hk
      rw [Dict.keys_append] at hk
      rcases List.mem_append.mp hk with hk' | hk'
      · obtain ⟨j, hj, hjeq⟩ := hacc _ hk'
        exact ⟨j, Nat.lt_succ_of_lt hj, hjeq⟩
      · refine ⟨i, Nat.lt_succ_self _, ?_⟩
        simpa [Dict.keys] using hk'

theorem keys_enumIndexColumns (l : List Index) :
    ∀ i, Dict.keys (enumIndexColumns i l) =
      (List.range' i l.length).map PKey.nat := by
  induction l with
  | nil => intro i; rfl
  | cons idx rest ih =>
    intro i
    rw [enumIndexColumns, Dict.keys_cons, ih (i + 1), List.length_cons,
      List.range'_succ, List.map_cons]

theorem mem_enumIndexColumns {kv : PKey × Column} (l : List Index) :
    ∀ i, kv ∈ enumIndexColumns i l → ∃ idx ∈ l, kv.2 = mkIndexColumn idx := by
  induction l with
  | nil =>
    intro i h
    exact absurd h (by rw [enumIndexColumns]; simp)
  | cons idx rest ih =>
    intro i h
    rw [enumIndexColumns] at h
    rcases List.mem_cons.mp h with rfl | h'
    · exact ⟨idx, List.mem_cons_self _ _, rfl⟩
    · obtain ⟨idx', hm, he⟩ := ih (i + 1) h'
      exact ⟨idx', List.mem_cons_of_mem _ hm, he⟩

theorem multiIndexColumnsAux_ok (ordered : Bool) (l : List Index)
    (h : ordered = true ∨ ∀ idx ∈ l, idx.name ≠ PKey.none) :
    ∀ (i : Nat) (acc : Dict Column),
      ∃ d, multiIndexColumnsAux ordered i acc l = Except.ok d ∧
        ∀ kv ∈ d, kv ∈ acc ∨ ∃ idx ∈ l, kv.2 = mkIndexColumn idx := by
  induction l with
  | nil =>
    intro i acc
    exact ⟨acc, rfl, fun kv hkv => Or.inl hkv⟩
  | cons idx rest ih =>
    intro i acc
    have hcond : ¬ (¬ ordered = true ∧ idx.name = PKey.none) := by
      rcases h with h | h
      · simp [h]
      · rintro ⟨_, hn⟩
        exact h idx (List.mem_cons_self _ _) hn
    have h' : ordered = true ∨ ∀ idx' ∈ rest, idx'.name ≠ PKey.none := by
      rcases h with h | h
      · exact Or.inl h
      · exact Or.inr (fun idx' hm => h idx' (List.mem_cons_of_mem _ hm))
    obtain ⟨d, hd, hmem⟩ := ih h' (i + 1)
      (Dict.insert acc (if idx.name = PKey.none then PKey.nat i else idx.name)
        (mkIndexColumn idx))
    refine ⟨d, ?_, ?_⟩
    · rw [multiIndexColumnsAux, if_neg hcond]
      exact hd
    · intro kv hkv
      rcases hmem kv hkv with hin | hidx
      · rcases mem_insert hin with rfl | hin'
        · exact Or.inr ⟨idx, List.mem_cons_self _ _, rfl⟩
        · exact Or.inl hin'
      · obtain ⟨idx', hm, he⟩ := hidx
        exact Or.inr ⟨idx', List.mem_cons_of_mem _ hm, he⟩

/-- C7: constructing a MultiIndex schema component with `ordered = false`
raises `SchemaInitError` as soon as any member index lacks an explicit
name, and succeeds when every member is named; with `ordered = true`
unnamed members are permitted, and an all-unnamed ordered MultiIndex
addresses its members by position: the built column mapping is keyed
`0, 1, ...` in member order.  (The success parts assume the member checks
carry no column-list `groupby`, whose validation is a separate
constructor concern.) -/
theorem multiindex_naming_spec (indexes : List Index) (coerce : Bool)
    (strict : Strict) (name : Option String) (unique : Option (List String)) :
    ((∃ i ∈ indexes, i.name = PKey.none) →
      MultiIndexSchema.init indexes coerce strict name false unique =
        Except.error (PanderaError.schemaInitError multiIndexNameErrMsg)) ∧
    ((∀ i ∈ indexes, i.name ≠ PKey.none) →
      (∀ i ∈ indexes, ∀ c ∈ i.checks, ∀ gs, c.groupby ≠ Groupby.cols gs) →
      ∃ m, MultiIndexSchema.init indexes coerce strict name false unique =
        Except.ok m) ∧
    ((∀ i ∈ indexes, i.name = PKey.none) →
      (∀ i ∈ indexes, ∀ c ∈ i.checks, ∀ gs, c.groupby ≠ Groupby.cols gs) →
      ∃ m, MultiIndexSchema.init indexes coerce strict name true unique =
        Except.ok m ∧ m.indexes = indexes ∧
        Dict.keys m.columns = (List.range indexes.length).map PKey.nat) := by
  refine ⟨?_, ?_, ?_⟩
  · intro hex
    rw [MultiIndexSchema.init, multiIndexColumnsAux_error_unnamed indexes 0 [] hex]
    rfl
  · intro hnamed hnogb
    obtain ⟨d, hd, hmem⟩ := multiIndexColumnsAux_ok false indexes
      (Or.inr hnamed) 0 []
    have hval : validateColumns d = Except.ok () := by
      refine (validateColumns_ok_iff d).mpr ?_
      intro kv hkv c hc gs hgs
      rcases hmem kv hkv with hin | ⟨idx, hm, he⟩
      · exact absurd hin (by simp)
      · rw [he] at hc
        exact absurd hgs (hnogb idx hm c hc gs)
    refine ⟨MultiIndexSchema.mk indexes (columnsRenamed d) coerce strict
      name false unique, ?_⟩
    rw [MultiIndexSchema.init, hd, exceptOkBind]
    show (validateColumns d >>= _) = _
    rw [hval, exceptOkBind]
  · intro hunnamed hnogb
    have hd := multiIndexColumnsAux_all_unnamed indexes hunnamed 0 []
      (by intro k hk; exact absurd hk (by simp [Dict.keys]))
    rw [List.nil_append] at hd
    have hval : validateColumns (enumIndexColumns 0 indexes) = Except.ok () := by
      refine (validateColumns_ok_iff _).mpr ?_
      intro kv hkv c hc gs hgs
      obtain ⟨idx, hm, he⟩ := mem_enumIndexColumns indexes 0 hkv
      rw [he] at hc
      exact absurd hgs (hnogb idx hm c hc gs)
    refine ⟨MultiIndexSchema.mk indexes
      (columnsRenamed (enumIndexColumns 0 indexes)) coerce strict name true
      unique, ?_, rfl, ?_⟩
    · rw [MultiIndexSchema.init, hd, exceptOkBind]
      show (validateColumns _ >>= _) = _
      rw [hval, exceptOkBind]
    · show Dict.keys (columnsRenamed (enumIndexColumns 0 indexes)) = _
      rw [keys_columnsRenamed, keys_enumIndexColumns indexes 0,
        ← List.range_eq_range']

/-- Witness for C7: a two-level MultiIndex with one unnamed member fails
when unordered; the same members succeed when ordered, keyed by position;
and two named members succeed when unordered. -/
theorem multiindex_naming_spec_witness :
    MultiIndexSchema.init [{ dtype := Option.some "int64" },
        { dtype := Option.some "str" }] false Strict.strictFalse Option.none
        false Option.none =
      Except.error (PanderaError.schemaInitError multiIndexNameErrMsg) ∧
    ∃ m, MultiIndexSchema.init [{ dtype := Option.some "int64" },
        { dtype := Option.some "str" }] false Strict.strictFalse Option.none
        true Option.none = Except.ok m ∧
      m.indexes = [{ dtype := Option.some "int64" },
        { dtype := Option.some "str" }] ∧
      Dict.keys m.columns = [PKey.nat 0, PKey.nat 1] := by
  constructor
  · exact (multiindex_naming_spec [{ dtype := Option.some "int64" },
      { dtype := Option.some "str" }] false Strict.strictFalse Option.none
      Option.none).1 ⟨{ dtype := Option.some "int64" }, by decide, rfl⟩
  · obtain ⟨m, hm, hidx, hkeys⟩ := (multiindex_naming_spec
      [{ dtype := Option.some "int64" }, { dtype := Option.some "str" }]
      false Strict.strictFalse Option.none Option.none).2.2
      (by intro i hi; fin_cases hi <;> rfl)
      (by
        intro i hi c hc gs
        fin_cases hi <;> exact absurd hc (by simp))
    exact ⟨m, hm, hidx, by rw [hkeys]; rfl⟩

/-! Evaluation lemma for `remove_columns`, and the add/remove round trip. -/

theorem removeColumnsValue_ok (self : DataFrameSchema) (cols : List PKey)
    (h1 : cols.filter (fun x => decide (x ∉ Dict.keys self.columns)) = [])
    (d : Dict Column) (h2 : cols.foldlM Dict.pop self.columns = Except.ok d) :
    removeColumnsValue self cols = Except.ok { self with columns := d } := by
  rw [removeColumnsValue]
  dsimp only
  rw [if_neg (by rw [h1]; simp)]
  exact congrArg
    (fun x => x >>= fun newCols => Except.ok { self with columns := newCols }) h2

/-- C3 (amended): for every schema `S` and dictionary of new columns whose
keys are distinct and disjoint from `S`'s column keys, and whose columns'
list-valued groupby check references lie within the new keys (so that the
re-validation `add_columns` performs on the new columns succeeds),
`add_columns` followed by `remove_columns` of the same keys yields a schema
structurally equal to `S`. -/
theorem add_remove_roundtrip (s : DataFrameSchema) (extra : Dict Column)
    (hnodup : (Dict.keys extra).Nodup)
    (hdisj : ∀ k ∈ Dict.keys extra, k ∉ Dict.keys s.columns)
    (hgb : ∀ kv ∈ extra, ∀ c ∈ kv.2.checks, groupbyRefsOk (Dict.keys extra) c) :
    ∃ r1 r2 : TransformResult,
      s.add_columns extra = Except.ok r1 ∧
      r1.result.remove_columns (Dict.keys extra) = Except.ok r2 ∧
      r2.result = s := by
  have hval : validateColumns extra = Except.ok () :=
    (validateColumns_ok_iff extra).mpr hgb
  have hkeysren : Dict.keys (columnsRenamed extra) = Dict.keys extra :=
    keys_columnsRenamed extra
  have hmerge : Dict.merge s.columns (columnsRenamed extra) =
      s.columns ++ columnsRenamed extra :=
    Dict.merge_eq_append _ _ (by rw [hkeysren]; exact hnodup)
      (by rw [hkeysren]; exact hdisj)
  refine ⟨⟨{ s with columns := s.columns ++ columnsRenamed extra }, true⟩,
    ⟨{ s with columns := s.columns }, true⟩, ?_, ?_, ?_⟩
  · rw [DataFrameSchema.add_columns, addColumnsValue_ok s extra hval,
      exceptOkBind, hmerge]
  · have h1 : (Dict.keys extra).filter
        (fun x => decide (x ∉ Dict.keys (s.columns ++ columnsRenamed extra))) = [] := by
      refine List.filter_eq_nil_iff.mpr ?_
      intro k hk
      rw [Dict.keys_append, hkeysren]
      simp [hk]
    have h2 : (Dict.keys extra).foldlM Dict.pop
        (s.columns ++ columnsRenamed extra) = Except.ok s.columns := by
      rw [← hkeysren]
      exact Dict.foldlM_pop_append (columnsRenamed extra) s.columns
        (by rw [hkeysren]; exact hnodup) (by rw [hkeysren]; exact hdisj)
    rw [DataFrameSchema.remove_columns,
      removeColumnsValue_ok _ (Dict.keys extra) h1 s.columns h2]
    rfl
  · rfl

/-- C3 counterexample: the new-column dictionary `{x: Column(groupby=[d])}`
has keys disjoint from the example schema's columns, yet `add_columns`
raises `SchemaInitError` (it re-validates the new columns' groupby
references against the new columns alone), so the add/remove composition
does not restore the schema. -/
theorem add_remove_counterexample :
    (do
      let r1 ← exampleSchema.add_columns [(PKey.str "x", colGroupbyD)]
      let r2 ← r1.result.remove_columns [PKey.str "x"]
      Except.ok r2.result) =
      Except.error (PanderaError.schemaInitError groupbyErrMsg) ∧
    PKey.str "x" ∉ Dict.keys exampleSchema.columns := by
  decide

/-- Witness for C3 (amended): adding and removing a plain column `x` on the
example schema restores it. -/
theorem add_remove_roundtrip_witness :
    ∃ r1 r2 : TransformResult,
      exampleSchema.add_columns [(PKey.str "x", colFloat)] = Except.ok r1 ∧
      r1.result.remove_columns (Dict.keys [(PKey.str "x", colFloat)]) =
        Except.ok r2 ∧
      r2.result = exampleSchema :=
  add_remove_roundtrip exampleSchema [(PKey.str "x", colFloat)] (by decide)
    (by decide)
    (by
      intro kv hkv c hc
      rcases List.mem_cons.mp hkv with rfl | h'
      · exact absurd hc (by simp [colFloat])
      · exact absurd h' (by simp))

/-! Evaluation lemmas for `set_index` and `reset_index` on a single key. -/

theorem setIndexValue_single (s : DataFrameSchema) (k : PKey) (c : Column)
    (hget : Dict.get? s.columns k = Option.some c) :
    setIndexValue s [k] true false = Except.ok
      { s with
        index := Option.some (SchemaIndex.index (columnAsIndex k c)),
        columns := s.columns.filter (fun kv => decide (kv.1 ≠ k)) } := by
  have hmem : k ∈ Dict.keys s.columns := Dict.get?_mem_keys hget
  have hfilnil : [k].filter (fun x => decide (x ∉ Dict.keys s.columns)) = [] := by
    refine List.filter_eq_nil_iff.mpr ?_
    intro x hx
    obtain rfl : x = k := by simpa using hx
    simp [hmem]
  have hrm : removeColumnsValue
      { s with index := Option.some (SchemaIndex.index (columnAsIndex k c)) }
      [k] = Except.ok
      { s with
        index := Option.some (SchemaIndex.index (columnAsIndex k c)),
        columns := s.columns.filter (fun kv => decide (kv.1 ≠ k)) } := by
    refine removeColumnsValue_ok _ [k] ?_ _ ?_
    · show [k].filter (fun x => decide (x ∉ Dict.keys s.columns)) = []
      exact hfilnil
    · show [k].foldlM Dict.pop s.columns = _
      rw [List.foldlM_cons, Dict.pop_of_mem hmem, exceptOkBind]
      rfl
  rw [setIndexValue]
  dsimp only
  rw [if_neg (by rw [hfilnil]; simp)]
  simp only [exceptPureBind, List.foldlM_cons, List.foldlM_nil, hget,
    exceptOkBind, List.nil_append]
  exact hrm

theorem resetIndexValue_single (s : DataFrameSchema) (i : Index)
    (hidx : s.index = Option.some (SchemaIndex.index i))
    (hnotin : i.name ∉ Dict.keys s.columns)
    (hval : validateColumns [(i.name,
      fieldAsColumn i.dtype i.checks i.nullable i.unique i.coerce i.name)] =
      Except.ok ()) :
    resetIndexValue s Option.none false = Except.ok
      { s with
        index := Option.none,
        columns := s.columns ++ columnsRenamed [(i.name,
          fieldAsColumn i.dtype i.checks i.nullable i.unique i.coerce i.name)] } := by
  have hadd : addColumnsValue s [(i.name,
      fieldAsColumn i.dtype i.checks i.nullable i.unique i.coerce i.name)] =
      Except.ok { s with columns := s.columns ++ columnsRenamed [(i.name,
        fieldAsColumn i.dtype i.checks i.nullable i.unique i.coerce i.name)] } := by
    rw [addColumnsValue_ok s _ hval,
      Dict.merge_eq_append _ _
        (by
          show ([i.name] : List PKey).Nodup
          exact List.nodup_singleton _)
        (by
          intro x hx
          obtain rfl : x = i.name := by
            simpa using (show x ∈ ([i.name] : List PKey) from hx)
          exact hnotin)]
  rw [resetIndexValue]
  dsimp only
  rw [hidx]
  dsimp only [SchemaIndex.names, Index.names]
  rw [if_pos (rfl : ([i.name] : List PKey) = [i.name])]
  rw [if_neg (by simp)]
  simp only [exceptPureBind, exceptOkBind]
  rw [if_pos (by simp : ¬ (false = true))]
  simp only [exceptPureBind, exceptOkBind, hadd]

theorem Dict.get?_cons_self {α : Type} (k : PKey) (v : α) (rest : Dict α) :
    Dict.get? ((k, v) :: rest) k = Option.some v := by
  simp [Dict.get?]

/-- C2 (amended): for every schema with a non-regex column `"c"` whose
checks' list-valued groupby references (if any) point only at `"c"` itself
(otherwise the re-validation inside `reset_index`'s `add_columns` raises
`SchemaInitError`), `set_index(["c"])` followed by `reset_index()` yields a
schema with a column `"c"` equal to the original in dtype, checks, nullable
and unique; the intermediate `Index` preserves dtype/checks/nullable/unique
/coerce of the column, and the restored column carries the constructor
defaults for the column-only attributes (`required = true`,
`regex = false`), which are never carried through the Index
representation. -/
theorem set_reset_roundtrip (s : DataFrameSchema) (c : Column)
    (hget : Dict.get? s.columns (PKey.str "c") = Option.some c)
    (_hreg : c.regex = false)
    (hgb : ∀ ch ∈ c.checks, ∀ gs, ch.groupby = Groupby.cols gs →
      ∀ g ∈ gs, g = "c") :
    ∃ (r1 r2 : TransformResult) (c' : Column),
      s.set_index [PKey.str "c"] true false = Except.ok r1 ∧
      r1.result.index = Option.some (SchemaIndex.index
        { dtype := c.dtype, checks := c.checks, nullable := c.nullable,
          unique := c.unique, coerce := c.coerce, name := PKey.str "c" }) ∧
      r1.result.reset_index Option.none false = Except.ok r2 ∧
      Dict.get? r2.result.columns (PKey.str "c") = Option.some c' ∧
      c'.dtype = c.dtype ∧ c'.checks = c.checks ∧ c'.nullable = c.nullable ∧
      c'.unique = c.unique ∧ c'.coerce = c.coerce ∧
      c'.required = true ∧ c'.regex = false := by
  have hval : validateColumns [(PKey.str "c",
      fieldAsColumn c.dtype c.checks c.nullable c.unique c.coerce
        (PKey.str "c"))] = Except.ok () := by
    refine (validateColumns_ok_iff _).mpr ?_
    intro kv hkv ch hch gs hgs g hg
    obtain rfl : kv = (PKey.str "c",
        fieldAsColumn c.dtype c.checks c.nullable c.unique c.coerce
          (PKey.str "c")) := by simpa using hkv
    obtain rfl : g = "c" := hgb ch hch gs hgs g hg
    show PKey.str "c" ∈ [PKey.str "c"]
    exact List.mem_singleton.mpr rfl
  refine ⟨⟨{ s with
      index := Option.some (SchemaIndex.index (columnAsIndex (PKey.str "c") c)),
      columns := s.columns.filter (fun kv => decide (kv.1 ≠ PKey.str "c")) },
      true⟩,
    ⟨{ s with
      index := Option.none,
      columns := s.columns.filter (fun kv => decide (kv.1 ≠ PKey.str "c")) ++
        columnsRenamed [(PKey.str "c",
          fieldAsColumn c.dtype c.checks c.nullable c.unique c.coerce
            (PKey.str "c"))] }, true⟩,
    fieldAsColumn c.dtype c.checks c.nullable c.unique c.coerce (PKey.str "c"),
    ?_, rfl, ?_, ?_, rfl, rfl, rfl, rfl, rfl, rfl, rfl⟩
  · rw [DataFrameSchema.set_index, setIndexValue_single s (PKey.str "c") c hget,
      exceptOkBind]
  · rw [DataFrameSchema.reset_index, if_neg (by simp)]
    rw [resetIndexValue_single _ (columnAsIndex (PKey.str "c") c) rfl
      (Dict.not_mem_keys_filter_ne s.columns (PKey.str "c")) hval,
      exceptOkBind]
    rfl
  · show Dict.get? (s.columns.filter (fun kv => decide (kv.1 ≠ PKey.str "c")) ++
      columnsRenamed [(PKey.str "c",
        fieldAsColumn c.dtype c.checks c.nullable c.unique c.coerce
          (PKey.str "c"))]) (PKey.str "c") = _
    rw [Dict.get?_append_right _ (Dict.not_mem_keys_filter_ne s.columns (PKey.str "c"))]
    show Dict.get? [(PKey.str "c",
      (fieldAsColumn c.dtype c.checks c.nullable c.unique c.coerce
        (PKey.str "c")).set_name (PKey.str "c"))] (PKey.str "c") = _
    rw [Dict.get?_cons_self]
    rfl

/-- C2 counterexample: on a valid schema whose column `c` carries a check
grouped by the other column `d`, `set_index(["c"])` succeeds but
`reset_index()` raises `SchemaInitError`: its `add_columns` re-validates
the moved column's groupby references against the re-added column alone,
so the round trip does not restore the schema. -/
theorem set_reset_roundtrip_counterexample :
    (do
      let r1 ← schemaCD.set_index [PKey.str "c"] true false
      let r2 ← r1.result.reset_index Option.none false
      Except.ok r2.result) =
      Except.error (PanderaError.schemaInitError groupbyErrMsg) := by
  decide

/-- Witness for C2 (amended): the round trip restores the check-free float
column `c` of a concrete two-column schema. -/
theorem set_reset_roundtrip_witness :
    ∃ (r1 r2 : TransformResult) (c' : Column),
      schemaWithC.set_index [PKey.str "c"] true false = Except.ok r1 ∧
      r1.result.index = Option.some (SchemaIndex.index
        { dtype := (colFloat.set_name (PKey.str "c")).dtype,
          checks := (colFloat.set_name (PKey.str "c")).checks,
          nullable := (colFloat.set_name (PKey.str "c")).nullable,
          unique := (colFloat.set_name (PKey.str "c")).unique,
          coerce := (colFloat.set_name (PKey.str "c")).coerce,
          name := PKey.str "c" }) ∧
      r1.result.reset_index Option.none false = Except.ok r2 ∧
      Dict.get? r2.result.columns (PKey.str "c") = Option.some c' ∧
      c'.dtype = (colFloat.set_name (PKey.str "c")).dtype ∧
      c'.checks = (colFloat.set_name (PKey.str "c")).checks ∧
      c'.nullable = (colFloat.set_name (PKey.str "c")).nullable ∧
      c'.unique = (colFloat.set_name (PKey.str "c")).unique ∧
      c'.coerce = (colFloat.set_name (PKey.str "c")).coerce ∧
      c'.required = true ∧ c'.regex = false :=
  set_reset_roundtrip schemaWithC (colFloat.set_name (PKey.str "c"))
    (by decide) (by decide)
    (by
      intro ch hch
      exact absurd hch (by simp [colFloat, Column.set_name]))

end Pandera
